import Mathlib

/-!
# Verification of the tracker backend (`app.py`)

A shallow embedding of the parts of the Flask backend that the verified
claims are about: the slot resolver and intent normalizer of the Alexa
webhook, the direct logging writers with their degradation policy, the
list endpoints and their sort, the authenticated voice endpoint's token
fallback, and the account-linking endpoints (link / unlink).

Python dicts are modelled as association lists preserving insertion order
(Python 3.7+ dict semantics); the Firebase / Firestore calls and the
outbound HTTP calls are external collaborators, modelled by their observable
outcome (a push that either returns a fresh key or raises, an HTTP response
with a status and a body, a merge-write into a document).
-/

namespace Tracker

/-- A JSON-ish primitive value as stored in the request / document dicts of
`app.py`: strings, ints, booleans, lists of strings (food items) and
Python `None`. -/
inductive Prim where
  | str : String → Prim
  | int : Int → Prim
  | bool : Bool → Prim
  | strList : List String → Prim
  | null : Prim
deriving DecidableEq, Repr

/-- A Python dict with string keys, in insertion order. -/
abbrev Dict := List (String × Prim)

/-- Association-list lookup: `d[k]` / `k in d` on a Python dict
(first binding wins; dict keys are unique anyway). -/
def alookup {α : Type} : List (String × α) → String → Option α
  | [], _ => none
  | (k, v) :: rest, key => if k = key then some v else alookup rest key

/-- Python `k in d`. -/
def dictContains (d : Dict) (k : String) : Bool :=
  (alookup d k).isSome

/-- Python `d[k] = v`: overwrite in place if the key exists (position kept),
otherwise append at the end. -/
def dictSet : Dict → String → Prim → Dict
  | [], k, v => [(k, v)]
  | (k', v') :: rest, k, v =>
    if k' = k then (k, v) :: rest else (k', v') :: dictSet rest k v

/-- The slot bag of an Alexa intent: slot name ↦ optional value
(`slots[name].get('value')`; `none` models an absent `value` key or
Python `None`). -/
abbrev SlotBag := List (String × Option String)

/-- `get_slot_value(slots, possible_slot_names, default_value='')` from
`app.py`: return the value of the first alias that is present in the bag
with a truthy (non-empty) value, else the default. -/
def get_slot_value (slots : SlotBag) (names : List String) (dflt : String) : String :=
  match names with
  | [] => dflt
  | n :: rest =>
    match alookup slots n with
    | some (some v) => if v = "" then get_slot_value slots rest dflt else v
    | _ => get_slot_value slots rest dflt

/-- Whether alias `n` is present in the bag with a truthy value
(`n in slots and slots[n].get('value')`). -/
def slotTruthy (slots : SlotBag) (n : String) : Bool :=
  match alookup slots n with
  | some (some v) => v != ""
  | _ => false

/-! ## Python `int(str)` parsing

`int(duration_str)` accepts optional surrounding whitespace, an optional
sign, and a non-empty run of decimal digits in which single underscores may
separate digits; anything else raises `ValueError` (modelled as `none`). -/

/-- The ASCII whitespace characters `int` strips. -/
def isPySpace (c : Char) : Bool :=
  c == ' ' || c == '\t' || c == '\n' || c == '\x0d' || c == '\x0b' || c == '\x0c'

/-- Strip whitespace from both ends. -/
def pyStrip (cs : List Char) : List Char :=
  ((cs.dropWhile isPySpace).reverse.dropWhile isPySpace).reverse

/-- Parse a run of decimal digits with single separating underscores.
`seen` records whether the previous character was a digit; the run must be
non-empty and must not start, end, or double an underscore. -/
def pyDigits : List Char → Nat → Bool → Option Nat
  | [], acc, seen => if seen then some acc else none
  | c :: rest, acc, seen =>
    if c.isDigit then pyDigits rest (acc * 10 + (c.toNat - 48)) true
    else if c == '_' then (if seen then pyDigits rest acc false else none)
    else none

/-- Python `int(s)`: `some n` on success, `none` when `int` raises
`ValueError`. -/
def pyInt (s : String) : Option Int :=
  match pyStrip s.toList with
  | '+' :: rest => (pyDigits rest 0 false).map (fun n => (n : Int))
  | '-' :: rest => (pyDigits rest 0 false).map (fun n => -(n : Int))
  | rest => (pyDigits rest 0 false).map (fun n => (n : Int))

/-! ## Intent normalization (`alexa_log`, LogWorkoutIntent / LogMealIntent) -/

/-- Python `str.lower()` on the ASCII range (slot values and the literal
defaults are ASCII). -/
def pyLower (s : String) : String :=
  ⟨s.data.map Char.toLower⟩

/-- `workout_type = get_slot_value(slots, ['WorkoutType', 'workoutType'], 'cardio').lower()`. -/
def alexa_workout_type (slots : SlotBag) : String :=
  pyLower (get_slot_value slots ["WorkoutType", "workoutType"] "cardio")

/-- `duration = 30` default; if the duration slot resolves to a non-empty
string, try `int(...)`, keeping 30 on `ValueError`. -/
def alexa_duration (slots : SlotBag) : Int :=
  let ds := get_slot_value slots ["Duration", "duration"] ""
  if ds = "" then 30
  else
    match pyInt ds with
    | some n => n
    | none => 30

/-- `meal_type = get_slot_value(slots, ['MealType', 'mealType'], 'snack').lower()`. -/
def alexa_meal_type (slots : SlotBag) : String :=
  pyLower (get_slot_value slots ["MealType", "mealType"] "snack")

/-- `food_item = get_slot_value(slots, ['FoodItem', 'foodItems'])`. -/
def alexa_food_item (slots : SlotBag) : String :=
  get_slot_value slots ["FoodItem", "foodItems"] ""

/-! ## The direct writers (`log_workout`, `log_direct_workout`, `log_direct_meal`)

The Realtime-Database push is the external append store; it is modelled by
its outcome: `Except.ok key` (a fresh record key) or `Except.error msg`
(the raised Firebase exception's message).  `TEST_MODE` is `False` in the
source, so the test-mode branches are dead and are not modelled.  The
Firestore sync that follows a successful push has its boolean result
ignored by every caller and does not affect any modelled output. -/

/-- The result dict of the logging helpers:
`{'success': ..., 'message': ..., 'workout_id'/'meal_id': ...}`. -/
structure LogResult where
  success : Bool
  message : String
  record_id : Option String
deriving DecidableEq, Repr

/-- `required_fields` of `log_workout` / `log_direct_workout`. -/
def workout_required_fields : List String :=
  ["workoutType", "activityName", "duration", "timestamp", "source"]

/-- `required_fields` of `log_meal` / `log_direct_meal`. -/
def meal_required_fields : List String :=
  ["mealType", "foodItems", "timestamp", "source"]

/-- The validation loop: the first required field not present in the data. -/
def firstMissingField (fields : List String) (d : Dict) : Option String :=
  fields.find? (fun f => !(dictContains d f))

/-- `log_direct_workout(workout_data)` from `app.py`. -/
def log_direct_workout (fbInit : Bool) (push : Except String String)
    (workout_data : Dict) : LogResult :=
  match firstMissingField workout_required_fields workout_data with
  | some f => ⟨false, "Missing required field: " ++ f, none⟩
  | none =>
    if fbInit then
      match push with
      | Except.ok wid => ⟨true, "Workout logged successfully", some wid⟩
      | Except.error err =>
        if alookup workout_data "source" = some (Prim.str "alexa") then
          ⟨true, "Workout logged for Alexa (no Firebase)", some "temp_id"⟩
        else ⟨false, err, none⟩
    else ⟨false, "Firebase not initialized", none⟩

/-- `log_direct_meal(meal_data)` from `app.py`. -/
def log_direct_meal (fbInit : Bool) (push : Except String String)
    (meal_data : Dict) : LogResult :=
  match firstMissingField meal_required_fields meal_data with
  | some f => ⟨false, "Missing required field: " ++ f, none⟩
  | none =>
    if fbInit then
      match push with
      | Except.ok mid => ⟨true, "Meal logged successfully", some mid⟩
      | Except.error err =>
        if alookup meal_data "source" = some (Prim.str "alexa") then
          ⟨true, "Meal logged for Alexa (no Firebase)", some "temp_id"⟩
        else ⟨false, err, none⟩
    else ⟨false, "Firebase not initialized", none⟩

/-- The `/api/log-workout` route (`log_workout`): same logic as the helper,
paired with the HTTP status it attaches (400 validation, 200 success or
degraded Alexa success, 500 store failure / Firebase not initialized). -/
def log_workout_route (fbInit : Bool) (push : Except String String)
    (data : Dict) : LogResult × Nat :=
  match firstMissingField workout_required_fields data with
  | some f => (⟨false, "Missing required field: " ++ f, none⟩, 400)
  | none =>
    if fbInit then
      match push with
      | Except.ok wid => (⟨true, "Workout logged successfully", some wid⟩, 200)
      | Except.error err =>
        if alookup data "source" = some (Prim.str "alexa") then
          (⟨true, "Workout logged for Alexa (no Firebase)", some "temp_id"⟩, 200)
        else (⟨false, err, none⟩, 500)
    else (⟨false, "Firebase not initialized", none⟩, 500)

/-! ## The unauthenticated Alexa webhook (`alexa_log`) -/

/-- The Alexa response envelope (speech text, optional simple card,
optional LinkAccount card, session flag). -/
structure AlexaResponse where
  outputSpeech : Option String
  cardTitle : Option String
  cardContent : Option String
  linkAccountCard : Bool
  shouldEndSession : Bool
deriving DecidableEq, Repr

/-- The `workout_data` dict built by `alexa_log` for `LogWorkoutIntent`
(`today` is `datetime.now().strftime('%Y-%m-%d')`, `event_id` the
`alexa_{timestamp}` string). -/
def mk_alexa_workout_data (workout_type : String) (duration : Int)
    (today event_id : String) : Dict :=
  [("workoutType", Prim.str workout_type),
   ("duration", Prim.int duration),
   ("timestamp", Prim.str today),
   ("source", Prim.str "alexa"),
   ("type", Prim.str "workout"),
   ("id", Prim.str event_id)]

/-- The `meal_data` dict built by `alexa_log` for `LogMealIntent`. -/
def mk_alexa_meal_data (meal_type : String) (food_items : List String)
    (today event_id : String) : Dict :=
  [("mealType", Prim.str meal_type),
   ("foodItems", Prim.strList food_items),
   ("timestamp", Prim.str today),
   ("source", Prim.str "alexa"),
   ("type", Prim.str "meal"),
   ("id", Prim.str event_id)]

/-- The `LogWorkoutIntent` branch of `alexa_log`: normalize the slots,
build `workout_data`, call `log_direct_workout`, and return the Alexa
response together with the helper's (uninspected) result.
`log_direct_workout` catches every exception internally and returns a
result dict, so the surrounding `except` branch of `alexa_log` is dead and
the spoken response is always the success announcement. -/
def alexa_log_workout (slots : SlotBag) (today event_id : String)
    (fbInit : Bool) (push : Except String String) : AlexaResponse × LogResult :=
  let workout_type := alexa_workout_type slots
  let duration := alexa_duration slots
  let workout_data := mk_alexa_workout_data workout_type duration today event_id
  let res := log_direct_workout fbInit push workout_data
  (⟨some ("Your " ++ workout_type ++ " workout has been logged successfully for "
            ++ toString duration ++ " minutes."),
    some "EleFit Tracker",
    some ("Logged " ++ workout_type ++ " workout for " ++ toString duration ++ " minutes."),
    false, true⟩, res)

/-- `food_text = f" with {food_item}" if food_item else ""`. -/
def alexa_food_text (slots : SlotBag) : String :=
  if alexa_food_item slots = "" then "" else " with " ++ alexa_food_item slots

/-- The `LogMealIntent` branch of `alexa_log`, same shape as the workout
branch. -/
def alexa_log_meal (slots : SlotBag) (today event_id : String)
    (fbInit : Bool) (push : Except String String) : AlexaResponse × LogResult :=
  let meal_type := alexa_meal_type slots
  let food_item := alexa_food_item slots
  let food_items := if food_item = "" then [] else [food_item]
  let meal_data := mk_alexa_meal_data meal_type food_items today event_id
  let res := log_direct_meal fbInit push meal_data
  (⟨some ("Your " ++ meal_type ++ alexa_food_text slots
            ++ " has been logged successfully."),
    some "EleFit Tracker",
    some ("Logged " ++ meal_type ++ alexa_food_text slots ++ "."),
    false, true⟩, res)

/-! ## The list endpoints (`get_workout_logs`, `get_meal_logs`)

Both routes read the whole collection (an insertion-ordered mapping from
push key to record), attach each key as the record's `id`, and run
`result.sort(key=lambda x: x.get('timestamp', ''), reverse=True)`.
Python's sort is a stable sort; with `reverse=True` it orders by the key
descending while records with equal keys keep their original relative
order.  A stable sort for a total preorder has a unique result, so
`List.insertionSort` over the matching relation is a faithful model. -/

/-- Python string `<=`: lexicographic on code points, a proper head run
being smaller. -/
def lexLe : List Char → List Char → Bool
  | [], _ => true
  | _ :: _, [] => false
  | a :: as, b :: bs =>
    if a.toNat < b.toNat then true
    else if b.toNat < a.toNat then false
    else lexLe as bs

theorem lexLe_total : ∀ as bs : List Char, lexLe as bs = true ∨ lexLe bs as = true := by
  intro as
  induction as with
  | nil => intro bs; left; rfl
  | cons a as ih =>
    intro bs
    match bs with
    | [] => right; rfl
    | b :: bs =>
      simp only [lexLe]
      rcases Nat.lt_trichotomy a.toNat b.toNat with h | h | h
      · left; simp [h]
      · have h1 : ¬ a.toNat < b.toNat := by omega
        have h2 : ¬ b.toNat < a.toNat := by omega
        simpa [h1, h2] using ih bs
      · right; simp [h]

theorem lexLe_trans : ∀ as bs cs : List Char,
    lexLe as bs = true → lexLe bs cs = true → lexLe as cs = true := by
  intro as
  induction as with
  | nil => intro bs cs _ _; rfl
  | cons a as ih =>
    intro bs cs h1 h2
    match bs, cs with
    | [], _ => simp [lexLe] at h1
    | _ :: _, [] => simp [lexLe] at h2
    | b :: bs, c :: cs =>
      simp only [lexLe] at h1 h2 ⊢
      split_ifs at h1 h2 ⊢ <;> first
        | rfl
        | omega
        | (exact ih bs cs h1 h2)

/-- The sort key: `x.get('timestamp', '')` (records store the timestamp as
a date string). -/
def tsKey (d : Dict) : String :=
  match alookup d "timestamp" with
  | some (Prim.str s) => s
  | _ => ""

/-- The order in which the routes emit records: `a` may come no later than
`b` iff `b`'s timestamp is at most `a`'s (timestamp descending). -/
def tsGe (a b : Dict) : Prop :=
  lexLe (tsKey b).data (tsKey a).data = true

instance : DecidableRel tsGe :=
  fun _ _ => inferInstanceAs (Decidable (_ = true))

instance : IsTotal Dict tsGe :=
  ⟨fun a b => lexLe_total (tsKey b).data (tsKey a).data⟩

instance : IsTrans Dict tsGe :=
  ⟨fun _ _ _ h1 h2 => lexLe_trans _ _ _ h2 h1⟩

/-- `log_data['id'] = log_id` for every record of the collection, in
collection (insertion) order. -/
def attach_ids (logs : List (String × Dict)) : List Dict :=
  logs.map (fun p => dictSet p.2 "id" (Prim.str p.1))

/-- The record list returned by `/api/workout-logs`. -/
def get_workout_logs_result (logs : List (String × Dict)) : List Dict :=
  List.insertionSort tsGe (attach_ids logs)

/-- The record list returned by `/api/meal-logs` (same processing over the
meal collection). -/
def get_meal_logs_result (logs : List (String × Dict)) : List Dict :=
  List.insertionSort tsGe (attach_ids logs)

/-- Inserting a record into the (sorted) accumulator neither reorders nor
drops the records of any fixed timestamp: the filter at a timestamp gains
the new record at the front exactly when the record carries that
timestamp. -/
theorem filter_orderedInsert (t : String) (a : Dict) (l : List Dict) :
    (List.orderedInsert tsGe a l).filter (fun d => tsKey d == t)
      = if tsKey a == t then a :: l.filter (fun d => tsKey d == t)
        else l.filter (fun d => tsKey d == t) := by
  induction l with
  | nil => rw [List.orderedInsert, List.filter_cons]
  | cons b l ih =>
    by_cases hr : tsGe a b
    · rw [List.orderedInsert, if_pos hr]
      rw [List.filter_cons]
    · rw [List.orderedInsert, if_neg hr]
      rw [List.filter_cons, ih, List.filter_cons]
      by_cases ha : tsKey a == t <;> by_cases hb : tsKey b == t
      · exfalso
        apply hr
        show lexLe (tsKey b).data (tsKey a).data = true
        have ha' : tsKey a = t := by simpa using ha
        have hb' : tsKey b = t := by simpa using hb
        rw [ha', hb']
        rcases lexLe_total t.data t.data with h | h <;> exact h
      · simp [ha, hb]
      · simp [ha, hb]
      · simp [ha, hb]

/-- Stability of the routes' sort: for every timestamp, the records holding
it appear in the output in their original (insertion) order. -/
theorem filter_insertionSort (t : String) (l : List Dict) :
    (List.insertionSort tsGe l).filter (fun d => tsKey d == t)
      = l.filter (fun d => tsKey d == t) := by
  induction l with
  | nil => rfl
  | cons a l ih =>
    rw [List.insertionSort, filter_orderedInsert, ih, List.filter_cons]

/-! ## The authenticated voice endpoint (`alexa_auth_log`)

The Google token verification (`id_token.verify_oauth2_token`) and the
base64 + JSON decoding of the token's payload segment are library calls;
they are modelled by their outcome: `verify = some user_info` when
verification succeeds with the given claims, `none` when it raises;
`decodedPayload = some payload` when splitting, padding, base64-decoding
and JSON-parsing the second token segment succeeds, `none` when that inner
`try` raises; `numTokenParts = len(token.split('.'))`.  The Firestore
writes are returned as an explicit effect list. -/

/-- The request envelope, discriminated the way the handler reads it
(`request.type`, then `intent.name` + `intent.slots`). -/
inductive AuthReq where
  | intentReq (name : String) (slots : SlotBag)
  | launch
  | sessionEnded
  | other
deriving DecidableEq, Repr

/-- One Firestore write of the authenticated handler:
`users/{userEmail}/{collection}/{docId} .set(data)`. -/
structure AuthWrite where
  userEmail : String
  collection : String
  docId : String
  data : Dict
deriving DecidableEq, Repr

/-- Python `d.get(k, dflt)` for a string-valued claim. -/
def getStrOr (d : Dict) (k dflt : String) : String :=
  match alookup d k with
  | some (Prim.str s) => s
  | _ => dflt

/-- `user_email` after the verification block of `alexa_auth_log`:
the verified claims' email when verification succeeds; otherwise the email
extracted from the base64-decoded payload segment when the token has at
least two dot-separated parts and decoding succeeds; otherwise
`'unknown_email'`. -/
def resolve_user_email (verify : Option Dict) (numTokenParts : Nat)
    (decodedPayload : Option Dict) : String :=
  match verify with
  | some user_info => getStrOr user_info "email" "unknown_email"
  | none =>
    if numTokenParts ≥ 2 then
      match decodedPayload with
      | some payload => getStrOr payload "email" "unknown_email"
      | none => "unknown_email"
    else "unknown_email"

/-- The response returned when no access token is supplied. -/
def link_account_response : AlexaResponse :=
  ⟨some "Please link your account in the Alexa app first.", none, none, true, true⟩

/-- The intent/request dispatch of `alexa_auth_log` after the user email is
resolved.  `fsAvailable` models the truthiness of `firestore_db`,
`writeFails` a Firestore exception during the set.  In the
`LogWorkoutIntent` branch the source has no `else` for an unavailable
Firestore: the handler falls off the end and returns Python `None`,
modelled as response `none`. -/
def process_auth_intent (user_email : String) (req : AuthReq)
    (today event_id doc_id : String) (fsAvailable writeFails : Bool) :
    Option AlexaResponse × List AuthWrite :=
  match req with
  | AuthReq.intentReq name slots =>
    if name = "AMAZON.LaunchIntent" then
      (some ⟨some "Welcome to EleFit Tracker. You can say 'log a workout' or 'log a meal'.",
        none, none, false, false⟩, [])
    else if name = "AMAZON.HelpIntent" then
      (some ⟨some "You can say 'log a workout' to record exercise, or 'log a meal' to record what you ate. How can I help you?",
        none, none, false, false⟩, [])
    else if name = "AMAZON.StopIntent" ∨ name = "AMAZON.CancelIntent" then
      (some ⟨some "Goodbye!", none, none, false, true⟩, [])
    else if name = "LogWorkoutIntent" then
      let workout_type := alexa_workout_type slots
      let duration := alexa_duration slots
      let workout_data :=
        dictSet (mk_alexa_workout_data workout_type duration today event_id)
          "id" (Prim.str doc_id)
      if fsAvailable then
        if writeFails then
          (some ⟨some "Sorry, there was an error logging your workout.",
            none, none, false, true⟩, [])
        else
          (some ⟨some ("Your " ++ workout_type ++ " workout for " ++ toString duration
                  ++ " minutes has been logged successfully."),
            some "EleFit Tracker",
            some ("Logged " ++ workout_type ++ " workout for " ++ toString duration
                  ++ " minutes."),
            false, true⟩,
           [⟨user_email, "workout_logs", doc_id, workout_data⟩])
      else (none, [])
    else if name = "LogMealIntent" then
      let meal_type := alexa_meal_type slots
      let food_item := alexa_food_item slots
      let food_items := if food_item = "" then [] else [food_item]
      let meal_data :=
        dictSet (mk_alexa_meal_data meal_type food_items today event_id)
          "id" (Prim.str doc_id)
      if fsAvailable then
        if writeFails then
          (some ⟨some "Sorry, there was an error logging your meal.",
            none, none, false, true⟩, [])
        else
          (some ⟨some ("Your " ++ meal_type ++ alexa_food_text slots
                  ++ " has been logged successfully."),
            some "EleFit Tracker",
            some ("Logged " ++ meal_type ++ alexa_food_text slots ++ "."),
            false, true⟩,
           [⟨user_email, "meal_logs", doc_id, meal_data⟩])
      else
        (some ⟨some "Sorry, the database is not available right now. Please try again later.",
          none, none, false, true⟩, [])
    else
      (some ⟨some "I'm not sure how to help with that. You can say 'log a workout' or 'log a meal'.",
        none, none, false, false⟩, [])
  | AuthReq.launch =>
    (some ⟨some "Welcome to EleFit Tracker. You can say 'log a workout' or 'log a meal'.",
      none, none, false, false⟩, [])
  | AuthReq.sessionEnded => (some ⟨none, none, none, false, true⟩, [])
  | AuthReq.other =>
    (some ⟨some "I'm not sure how to handle that request.", none, none, false, true⟩, [])

/-- The `/alexa/auth/log` handler: a missing or falsy access token yields
the LinkAccount card; otherwise the request is processed with the resolved
user email regardless of whether verification succeeded. -/
def alexa_auth_log (accessToken : Option String) (verify : Option Dict)
    (numTokenParts : Nat) (decodedPayload : Option Dict) (req : AuthReq)
    (today event_id doc_id : String) (fsAvailable writeFails : Bool) :
    Option AlexaResponse × List AuthWrite :=
  match accessToken with
  | none => (some link_account_response, [])
  | some t =>
    if t = "" then (some link_account_response, [])
    else
      process_auth_intent (resolve_user_email verify numTokenParts decodedPayload)
        req today event_id doc_id fsAvailable writeFails

/-! ## Account linking (`alexa_link_account`, `unlink_alexa_account`)

The Google tokeninfo call and the Amazon token-exchange call are external;
each is modelled by the status and body of its response.  A Firestore
merge-write (`user_ref.set(..., merge=True)`) recursively merges map
fields: keys present in the patch overwrite or extend the stored map,
keys absent from the patch are untouched. -/

/-- A `{'success': ..., 'message': ...}` JSON body with its HTTP status. -/
structure ApiResult where
  success : Bool
  message : String
  status : Nat
deriving DecidableEq, Repr

/-- `listStartsWith p s`: `s` begins with `p`. -/
def listStartsWith : List Char → List Char → Bool
  | [], _ => true
  | _ :: _, [] => false
  | p :: ps, c :: cs => p == c && listStartsWith ps cs

/-- `auth_header and auth_header.startswith('Bearer ')`. -/
def bearerOk (h : Option String) : Bool :=
  match h with
  | some s => listStartsWith "Bearer ".data s.data
  | none => false

/-- Python truthiness of an optional string (`None` and `''` are falsy). -/
def truthyStrOpt : Option String → Bool
  | some s => s != ""
  | none => false

/-- `user_email = token_data.get('email')` followed by the
`if not user_email` check: `some email` only for a present, non-empty
string claim. -/
def tokenEmail (tokenData : Dict) : Option String :=
  match alookup tokenData "email" with
  | some (Prim.str s) => if s = "" then none else some s
  | _ => none

/-- `Option String → Prim` for the token fields taken from the exchange
response (`token_data.get(...)` may be `None`). -/
def optPrim : Option String → Prim
  | some s => Prim.str s
  | none => Prim.null

/-- One merge-write of the link endpoint: the `amazonTokens` map merged
into `users/{userEmail}`. -/
structure LinkWrite where
  userEmail : String
  amazonTokens : List (String × Prim)
deriving DecidableEq, Repr

/-- `/api/alexa/link-account`: verify the bearer token with the tokeninfo
endpoint, require `code` and `redirect_uri`, exchange the code with the
Amazon token endpoint, and only on a 200 exchange merge the token map into
the user document. -/
def alexa_link_account (authHeader : Option String) (tokenInfoStatus : Nat)
    (tokenInfoData : Dict) (code redirect_uri : Option String)
    (exchangeStatus : Nat) (exchangeText : String)
    (accessTok refreshTok : Option String) (fbInit : Bool) (now : String) :
    ApiResult × List LinkWrite :=
  if !(bearerOk authHeader) then
    (⟨false, "Missing or invalid authorization", 401⟩, [])
  else if tokenInfoStatus ≠ 200 then
    (⟨false, "Invalid token", 401⟩, [])
  else
    match tokenEmail tokenInfoData with
    | none => (⟨false, "User email not found in token", 401⟩, [])
    | some user_email =>
      if !(truthyStrOpt code) || !(truthyStrOpt redirect_uri) then
        (⟨false, "Missing code or redirect_uri", 400⟩, [])
      else if exchangeStatus ≠ 200 then
        (⟨false, "Amazon token exchange failed: " ++ exchangeText, 400⟩, [])
      else if fbInit then
        (⟨true, "Account linked successfully", 200⟩,
         [⟨user_email,
           [("accessToken", optPrim accessTok),
            ("refreshToken", optPrim refreshTok),
            ("linked", Prim.bool true),
            ("linkedAt", Prim.str now)]⟩])
      else
        (⟨true, "Account linked successfully", 200⟩, [])

/-- A user document as the unlink endpoint sees it: the optional
`amazonTokens` map plus the remaining top-level fields (opaque here). -/
structure UserLinkDoc where
  amazonTokens : Option (List (String × Prim))
  otherFields : List (String × Prim)
deriving DecidableEq, Repr

/-- Merge a patch map into a stored map, key by key. -/
def mergeAssoc (old patch : List (String × Prim)) : List (String × Prim) :=
  patch.foldl (fun acc p => dictSet acc p.1 p.2) old

/-- The map merged by `unlink_alexa_account`:
`{'linked': False, 'unlinkedAt': now}`. -/
def unlink_tokens_patch (now : String) : List (String × Prim) :=
  [("linked", Prim.bool false), ("unlinkedAt", Prim.str now)]

/-- `user_ref.set({'amazonTokens': patch}, merge=True)`: create the
document if absent, set the map if the field is absent, otherwise merge
the patch into the stored map; every other top-level field is untouched. -/
def mergeSetAmazonTokens (doc : Option UserLinkDoc)
    (patch : List (String × Prim)) : UserLinkDoc :=
  match doc with
  | none => ⟨some patch, []⟩
  | some d =>
    match d.amazonTokens with
    | none => ⟨some patch, d.otherFields⟩
    | some tok => ⟨some (mergeAssoc tok patch), d.otherFields⟩

/-- `/api/alexa/unlink-account`: after the same bearer verification as the
link endpoint, merge `{'linked': False, 'unlinkedAt': now}` into the
user's `amazonTokens` map and report success. -/
def unlink_alexa_account (authHeader : Option String) (tokenInfoStatus : Nat)
    (tokenInfoData : Dict) (fbInit : Bool) (doc : Option UserLinkDoc)
    (now : String) : ApiResult × Option UserLinkDoc :=
  if !(bearerOk authHeader) then
    (⟨false, "Missing or invalid authorization", 401⟩, doc)
  else if tokenInfoStatus ≠ 200 then
    (⟨false, "Invalid token", 401⟩, doc)
  else
    match tokenEmail tokenInfoData with
    | none => (⟨false, "User email not found in token", 401⟩, doc)
    | some _ =>
      if fbInit then
        (⟨true, "Account unlinked successfully", 200⟩,
         some (mergeSetAmazonTokens doc (unlink_tokens_patch now)))
      else
        (⟨true, "Account unlinked successfully (Firebase not initialized)", 200⟩, doc)

/-- The `amazonTokens` map of an optional document (empty when the
document or the field is absent). -/
def tokensOf (doc : Option UserLinkDoc) : List (String × Prim)  :=
  match doc with
  | some d => d.amazonTokens.getD []
  | none => []

/-- Lookup of one field of the `amazonTokens` map. -/
def tokenField (doc : Option UserLinkDoc) (k : String) : Option Prim :=
  alookup (tokensOf doc) k

/-! ## Helper lemmas -/

theorem alookup_dictSet (d : Dict) (k : String) (v : Prim) (q : String) :
    alookup (dictSet d k v) q = if q = k then some v else alookup d q := by
  induction d with
  | nil =>
    by_cases h : q = k
    · subst h; simp [dictSet, alookup]
    · have h' : ¬ k = q := fun hh => h hh.symm
      simp [dictSet, alookup, h, h']
  | cons p d ih =>
    obtain ⟨k', v'⟩ := p
    by_cases hk : k' = k
    · subst hk
      by_cases hq : q = k'
      · subst hq; simp [dictSet, alookup]
      · have hq' : ¬ k' = q := fun hh => hq hh.symm
        simp [dictSet, alookup, hq, hq']
    · by_cases hq : k' = q
      · subst hq
        simp [dictSet, alookup, hk]
      · simp [dictSet, alookup, hk, hq, ih]

/-- `alexa_duration` in one step: parse the resolved duration slot string
with Python `int`, defaulting to 30 when the slot is absent (the resolver
yields `''` and `int('')` fails) or unparseable. -/
theorem alexa_duration_getD (slots : SlotBag) :
    alexa_duration slots
      = (pyInt (get_slot_value slots ["Duration", "duration"] "")).getD 30 := by
  unfold alexa_duration
  by_cases h : get_slot_value slots ["Duration", "duration"] "" = ""
  · simp [h]
    rfl
  · simp only [if_neg h]
    cases hp : pyInt (get_slot_value slots ["Duration", "duration"] "") <;> simp [hp]

/-- The unlink patch as two successive key writes. -/
theorem mergeAssoc_unlink (tok : List (String × Prim)) (now : String) :
    mergeAssoc tok (unlink_tokens_patch now)
      = dictSet (dictSet tok "linked" (Prim.bool false)) "unlinkedAt" (Prim.str now) := rfl

/-- After the unlink merge, `linked` is `False`. -/
theorem tokenField_merge_linked (doc : Option UserLinkDoc) (now : String) :
    tokenField (some (mergeSetAmazonTokens doc (unlink_tokens_patch now))) "linked"
      = some (Prim.bool false) := by
  match doc with
  | none => rfl
  | some d =>
    match h : d.amazonTokens with
    | none => simp [mergeSetAmazonTokens, h, tokenField, tokensOf, unlink_tokens_patch, alookup]
    | some tok =>
      simp [mergeSetAmazonTokens, h, tokenField, tokensOf, mergeAssoc_unlink,
        alookup_dictSet]

/-- After the unlink merge, `unlinkedAt` is the recorded timestamp. -/
theorem tokenField_merge_unlinkedAt (doc : Option UserLinkDoc) (now : String) :
    tokenField (some (mergeSetAmazonTokens doc (unlink_tokens_patch now))) "unlinkedAt"
      = some (Prim.str now) := by
  match doc with
  | none => rfl
  | some d =>
    match h : d.amazonTokens with
    | none => simp [mergeSetAmazonTokens, h, tokenField, tokensOf, unlink_tokens_patch, alookup]
    | some tok =>
      simp [mergeSetAmazonTokens, h, tokenField, tokensOf, mergeAssoc_unlink,
        alookup_dictSet]

/-- The unlink merge touches no token field other than `linked` and
`unlinkedAt`; in particular the stored access and refresh tokens survive. -/
theorem tokenField_merge_other (doc : Option UserLinkDoc) (now : String)
    (k : String) (h1 : k ≠ "linked") (h2 : k ≠ "unlinkedAt") :
    tokenField (some (mergeSetAmazonTokens doc (unlink_tokens_patch now))) k
      = tokenField doc k := by
  have h1' : ¬ ("linked" = k) := fun h => h1 h.symm
  have h2' : ¬ ("unlinkedAt" = k) := fun h => h2 h.symm
  match doc with
  | none =>
    simp [mergeSetAmazonTokens, tokenField, tokensOf, unlink_tokens_patch, alookup,
      h1, h2, h1', h2']
  | some d =>
    match h : d.amazonTokens with
    | none =>
      simp [mergeSetAmazonTokens, h, tokenField, tokensOf, unlink_tokens_patch, alookup,
        h1, h2, h1', h2']
    | some tok =>
      simp [mergeSetAmazonTokens, h, tokenField, tokensOf, mergeAssoc_unlink,
        alookup_dictSet, h1, h2, h1', h2']

/-- The unlink merge keeps every other top-level field of the document. -/
theorem mergeSet_otherFields (doc : Option UserLinkDoc) (patch : List (String × Prim)) :
    (mergeSetAmazonTokens doc patch).otherFields
      = match doc with | some d => d.otherFields | none => [] := by
  match doc with
  | none => rfl
  | some d =>
    match h : d.amazonTokens with
    | none => simp [mergeSetAmazonTokens, h]
    | some tok => simp [mergeSetAmazonTokens, h]

/-! ## The claims -/

/-- C1: the workout data built by `alexa_log` for a `LogWorkoutIntent` does
carry `source = 'alexa'` and `timestamp =` the current date, but it carries
no `activityName` at all — so, contrary to the claim, it fails the
required-field validation of `log_direct_workout` for every slot bag: the
writer always returns `Missing required field: activityName` and writes
nothing, whatever the store would have answered. -/
theorem claim_C1 : ∀ (slots : SlotBag) (today event_id : String) (fbInit : Bool)
    (push : Except String String),
    alookup (mk_alexa_workout_data (alexa_workout_type slots) (alexa_duration slots)
        today event_id) "source" = some (Prim.str "alexa")
    ∧ alookup (mk_alexa_workout_data (alexa_workout_type slots) (alexa_duration slots)
        today event_id) "timestamp" = some (Prim.str today)
    ∧ dictContains (mk_alexa_workout_data (alexa_workout_type slots) (alexa_duration slots)
        today event_id) "activityName" = false
    ∧ (alexa_log_workout slots today event_id fbInit push).2
      = ⟨false, "Missing required field: activityName", none⟩ := by
  intro slots today event_id fbInit push
  exact ⟨rfl, rfl, rfl, rfl⟩

/-- C2: for a well-formed event whose store push raises, the writers return
a synthetic success with the placeholder id `temp_id` when
`source = 'alexa'`, and return the failure (HTTP 500 on the route) for any
other source. -/
theorem claim_C2 (workout_data meal_data : Dict) (err : String)
    (hw : firstMissingField workout_required_fields workout_data = none)
    (hm : firstMissingField meal_required_fields meal_data = none) :
    (alookup workout_data "source" = some (Prim.str "alexa") →
      log_direct_workout true (Except.error err) workout_data
        = ⟨true, "Workout logged for Alexa (no Firebase)", some "temp_id"⟩
      ∧ log_workout_route true (Except.error err) workout_data
        = (⟨true, "Workout logged for Alexa (no Firebase)", some "temp_id"⟩, 200))
    ∧ (alookup workout_data "source" ≠ some (Prim.str "alexa") →
      log_direct_workout true (Except.error err) workout_data = ⟨false, err, none⟩
      ∧ log_workout_route true (Except.error err) workout_data = (⟨false, err, none⟩, 500))
    ∧ (alookup meal_data "source" = some (Prim.str "alexa") →
      log_direct_meal true (Except.error err) meal_data
        = ⟨true, "Meal logged for Alexa (no Firebase)", some "temp_id"⟩)
    ∧ (alookup meal_data "source" ≠ some (Prim.str "alexa") →
      log_direct_meal true (Except.error err) meal_data = ⟨false, err, none⟩) := by
  refine ⟨fun h => ⟨?_, ?_⟩, fun h => ⟨?_, ?_⟩, fun h => ?_, fun h => ?_⟩ <;>
    simp [log_direct_workout, log_workout_route, log_direct_meal, hw, hm, h]

/-- C2 witness: a concrete well-formed workout event, store push failing,
for both the voice source (masked success) and the web source (propagated
error). -/
theorem claim_C2_witness :
    log_direct_workout true (Except.error "boom")
      [("workoutType", Prim.str "running"), ("activityName", Prim.str "running"),
       ("duration", Prim.int 30), ("timestamp", Prim.str "2023-08-11"),
       ("source", Prim.str "alexa")]
      = ⟨true, "Workout logged for Alexa (no Firebase)", some "temp_id"⟩
    ∧ log_direct_workout true (Except.error "boom")
      [("workoutType", Prim.str "running"), ("activityName", Prim.str "running"),
       ("duration", Prim.int 30), ("timestamp", Prim.str "2023-08-11"),
       ("source", Prim.str "web")]
      = ⟨false, "boom", none⟩ :=
  ⟨((claim_C2
      [("workoutType", Prim.str "running"), ("activityName", Prim.str "running"),
       ("duration", Prim.int 30), ("timestamp", Prim.str "2023-08-11"),
       ("source", Prim.str "alexa")]
      [("mealType", Prim.str "lunch"), ("foodItems", Prim.strList ["sandwich"]),
       ("timestamp", Prim.str "2023-08-11"), ("source", Prim.str "alexa")]
      "boom" (by decide) (by decide)).1 (by decide)).1,
   ((claim_C2
      [("workoutType", Prim.str "running"), ("activityName", Prim.str "running"),
       ("duration", Prim.int 30), ("timestamp", Prim.str "2023-08-11"),
       ("source", Prim.str "web")]
      [("mealType", Prim.str "lunch"), ("foodItems", Prim.strList ["sandwich"]),
       ("timestamp", Prim.str "2023-08-11"), ("source", Prim.str "alexa")]
      "boom" (by decide) (by decide)).2.1 (by decide)).1⟩

/-- C3: for every `LogWorkoutIntent` / `LogMealIntent` request, the spoken
response of `alexa_log` is the fixed success announcement; it does not
depend on the store availability or push outcome at all, and it stays the
success announcement even when the helper's result has `success = False`
(for the workout: the result is always a failed result, the required
`activityName` being missing; for the meal: e.g. when Firebase is not
initialized). -/
theorem claim_C3 : ∀ (slots : SlotBag) (today event_id : String)
    (fbInit fbInit' : Bool) (push push' : Except String String),
    (alexa_log_workout slots today event_id fbInit push).1.outputSpeech
      = some ("Your " ++ alexa_workout_type slots
          ++ " workout has been logged successfully for "
          ++ toString (alexa_duration slots) ++ " minutes.")
    ∧ (alexa_log_workout slots today event_id fbInit push).1
      = (alexa_log_workout slots today event_id fbInit' push').1
    ∧ (alexa_log_workout slots today event_id true (Except.ok "wid")).2.success = false
    ∧ (alexa_log_meal slots today event_id fbInit push).1.outputSpeech
      = some ("Your " ++ alexa_meal_type slots ++ alexa_food_text slots
          ++ " has been logged successfully.")
    ∧ (alexa_log_meal slots today event_id fbInit push).1
      = (alexa_log_meal slots today event_id fbInit' push').1
    ∧ (alexa_log_meal slots today event_id false push).2.success = false := by
  intro slots today event_id fbInit fbInit' push push'
  exact ⟨rfl, rfl, rfl, rfl, rfl, rfl⟩

/-- C4: with a (non-empty) access token whose verification fails, the
authenticated handler is not rejected: it continues into the same intent
dispatch with the fallback email — the payload's `email` claim when the
token splits into at least two parts and decodes, `unknown_email`
otherwise — and behaves exactly as for a verified user carrying that email,
including the per-identity Firestore write of a logged workout. -/
theorem claim_C4 (t : String) (ht : t ≠ "") :
    ∀ (numTokenParts : Nat) (decodedPayload : Option Dict) (req : AuthReq)
      (today event_id doc_id : String) (fsAvailable writeFails : Bool),
    (alexa_auth_log (some t) none numTokenParts decodedPayload req
        today event_id doc_id fsAvailable writeFails
      = process_auth_intent (resolve_user_email none numTokenParts decodedPayload)
        req today event_id doc_id fsAvailable writeFails)
    ∧ (∀ payload : Dict, resolve_user_email none (numTokenParts + 2) (some payload)
        = getStrOr payload "email" "unknown_email")
    ∧ resolve_user_email none numTokenParts none = "unknown_email"
    ∧ resolve_user_email none 1 decodedPayload = "unknown_email"
    ∧ (∀ e : String,
        resolve_user_email (some [("email", Prim.str e)]) numTokenParts decodedPayload = e
        ∧ alexa_auth_log (some t) (some [("email", Prim.str e)]) numTokenParts
            decodedPayload req today event_id doc_id fsAvailable writeFails
          = process_auth_intent e req today event_id doc_id fsAvailable writeFails)
    ∧ (∀ slots : SlotBag,
        (alexa_auth_log (some t) none numTokenParts decodedPayload
          (AuthReq.intentReq "LogWorkoutIntent" slots) today event_id doc_id true false).2
        = [⟨resolve_user_email none numTokenParts decodedPayload, "workout_logs", doc_id,
            dictSet (mk_alexa_workout_data (alexa_workout_type slots)
              (alexa_duration slots) today event_id) "id" (Prim.str doc_id)⟩]) := by
  intro numTokenParts decodedPayload req today event_id doc_id fsAvailable writeFails
  refine ⟨?_, ?_, ?_, ?_, ?_, ?_⟩
  · simp [alexa_auth_log, ht]
  · intro payload
    have h2 : numTokenParts + 2 ≥ 2 := by omega
    simp [resolve_user_email, h2]
  · unfold resolve_user_email
    by_cases h : numTokenParts ≥ 2 <;> simp [h]
  · rfl
  · intro e
    exact ⟨rfl, by simp [alexa_auth_log, ht, resolve_user_email, getStrOr, alookup]⟩
  · intro slots
    simp [alexa_auth_log, ht, process_auth_intent]

/-- C4 witness: token `tok`, verification failed, a malformed single-part
token — the handler runs the launch branch under `unknown_email` exactly as
the continuation would. -/
theorem claim_C4_witness :
    alexa_auth_log (some "tok") none 1 none AuthReq.launch "2023-08-11" "e1" "d1" true false
      = process_auth_intent "unknown_email" AuthReq.launch "2023-08-11" "e1" "d1" true false := by
  have h := claim_C4 "tok" (by decide) 1 none AuthReq.launch "2023-08-11" "e1" "d1" true false
  have h1 := h.1
  rw [h.2.2.1] at h1
  exact h1

/-- C5: when the Amazon code exchange answers with a non-200 status, the
link endpoint fails with HTTP 400 and a message carrying the upstream
response body, and performs no store write: the stored LinkState is
untouched. -/
theorem claim_C5 (authHeader : Option String) (tokenInfoData : Dict) (email : String)
    (code redirect_uri : Option String) (exchangeStatus : Nat) (exchangeText : String)
    (accessTok refreshTok : Option String) (fbInit : Bool) (now : String)
    (hb : bearerOk authHeader = true)
    (he : tokenEmail tokenInfoData = some email)
    (hc : truthyStrOpt code = true)
    (hr : truthyStrOpt redirect_uri = true)
    (hx : exchangeStatus ≠ 200) :
    alexa_link_account authHeader 200 tokenInfoData code redirect_uri exchangeStatus
      exchangeText accessTok refreshTok fbInit now
      = (⟨false, "Amazon token exchange failed: " ++ exchangeText, 400⟩, []) := by
  simp [alexa_link_account, hb, he, hc, hr, hx]

/-- C5 witness: a concrete authorized link request whose code exchange
answers 400 with body `bad_request`. -/
theorem claim_C5_witness :
    alexa_link_account (some "Bearer abc") 200 [("email", Prim.str "user@example.com")]
      (some "authcode") (some "https://cb") 400 "bad_request" none none true "now"
      = (⟨false, "Amazon token exchange failed: bad_request", 400⟩, []) :=
  claim_C5 (some "Bearer abc") [("email", Prim.str "user@example.com")] "user@example.com"
    (some "authcode") (some "https://cb") 400 "bad_request" none none true "now"
    (by decide) (by decide) (by decide) (by decide) (by decide)

/-- C6 counterexample: two workout records share the timestamp
`2023-08-11`; the route (a stable sort with `reverse=True`) returns them in
insertion order `id1, id2`, not in the claimed insertion-order-descending
order `id2, id1`. -/
theorem claim_C6_counterexample :
    get_workout_logs_result
      [("id1", [("workout_type", Prim.str "running"), ("timestamp", Prim.str "2023-08-11")]),
       ("id2", [("workout_type", Prim.str "running"), ("timestamp", Prim.str "2023-08-11")])]
      = [[("workout_type", Prim.str "running"), ("timestamp", Prim.str "2023-08-11"),
          ("id", Prim.str "id1")],
         [("workout_type", Prim.str "running"), ("timestamp", Prim.str "2023-08-11"),
          ("id", Prim.str "id2")]]
    ∧ get_workout_logs_result
      [("id1", [("workout_type", Prim.str "running"), ("timestamp", Prim.str "2023-08-11")]),
       ("id2", [("workout_type", Prim.str "running"), ("timestamp", Prim.str "2023-08-11")])]
      ≠ [[("workout_type", Prim.str "running"), ("timestamp", Prim.str "2023-08-11"),
          ("id", Prim.str "id2")],
         [("workout_type", Prim.str "running"), ("timestamp", Prim.str "2023-08-11"),
          ("id", Prim.str "id1")]] := by decide

/-- C6 (amended): both list operations return all stored records of the
kind (a permutation of the collection with ids attached), ordered by
timestamp descending; among records with equal timestamps the tie-break is
insertion order ascending — the stable sort keeps the original order of
ties. -/
theorem claim_C6 : ∀ (workout_logs meal_logs : List (String × Dict)),
    List.Perm (get_workout_logs_result workout_logs) (attach_ids workout_logs)
    ∧ List.Sorted tsGe (get_workout_logs_result workout_logs)
    ∧ (∀ t, (get_workout_logs_result workout_logs).filter (fun d => tsKey d == t)
        = (attach_ids workout_logs).filter (fun d => tsKey d == t))
    ∧ List.Perm (get_meal_logs_result meal_logs) (attach_ids meal_logs)
    ∧ List.Sorted tsGe (get_meal_logs_result meal_logs)
    ∧ (∀ t, (get_meal_logs_result meal_logs).filter (fun d => tsKey d == t)
        = (attach_ids meal_logs).filter (fun d => tsKey d == t)) := by
  intro workout_logs meal_logs
  exact ⟨List.perm_insertionSort _ _, List.sorted_insertionSort _ _,
    fun t => filter_insertionSort t _, List.perm_insertionSort _ _,
    List.sorted_insertionSort _ _, fun t => filter_insertionSort t _⟩

/-- C7: the `LogWorkoutIntent` normalizer resolves the activity type from
its alias set with default `cardio`, lower-cased, and the duration by
Python integer parsing with default 30 on an absent or unparseable slot;
the request is never rejected — the response is always the logged
announcement built from the resolved values. -/
theorem claim_C7 : ∀ (slots : SlotBag) (today event_id : String) (fbInit : Bool)
    (push : Except String String),
    alexa_workout_type slots
      = pyLower (get_slot_value slots ["WorkoutType", "workoutType"] "cardio")
    ∧ alexa_duration slots
      = (pyInt (get_slot_value slots ["Duration", "duration"] "")).getD 30
    ∧ (alexa_log_workout slots today event_id fbInit push).1.outputSpeech
      = some ("Your " ++ alexa_workout_type slots
          ++ " workout has been logged successfully for "
          ++ toString (alexa_duration slots) ++ " minutes.")
    ∧ pyInt "45" = some 45
    ∧ pyInt "forty-five" = none
    ∧ alexa_duration [("Duration", some "45")] = 45
    ∧ alexa_duration [("Duration", some "forty-five")] = 30
    ∧ alexa_duration [] = 30
    ∧ alexa_workout_type [] = "cardio"
    ∧ alexa_workout_type [("WorkoutType", some "Running")] = "running" := by
  intro slots today event_id fbInit push
  exact ⟨rfl, alexa_duration_getD slots, rfl, by decide, by decide, by decide,
    by decide, by decide, by decide, by decide⟩

/-- C8: the slot resolver returns the value of the first alias present in
the bag with a non-empty value, unchanged (case preserved); when no alias
matches it returns the caller-supplied default; it is a total function
(no error condition). -/
theorem claim_C8 : ∀ (slots : SlotBag) (names : List String) (dflt : String),
    ((∀ n ∈ names, slotTruthy slots n = false) → get_slot_value slots names dflt = dflt)
    ∧ (∀ (pre : List String) (a : String) (post : List String) (v : String),
        names = pre ++ a :: post →
        (∀ n ∈ pre, slotTruthy slots n = false) →
        alookup slots a = some (some v) → v ≠ "" →
        get_slot_value slots names dflt = v)
    ∧ get_slot_value [("workoutType", some "running")] ["WorkoutType", "workoutType"] dflt
      = "running"
    ∧ get_slot_value [] ["WorkoutType", "workoutType"] dflt = dflt := by
  intro slots names dflt
  have hdflt : ∀ ns : List String,
      (∀ n ∈ ns, slotTruthy slots n = false) → get_slot_value slots ns dflt = dflt := by
    intro ns
    induction ns with
    | nil => intro _; rfl
    | cons n rest ih =>
      intro h
      have hn := h n (by simp)
      have hrest : ∀ m ∈ rest, slotTruthy slots m = false :=
        fun m hm => h m (by simp [hm])
      unfold get_slot_value
      cases hl : alookup slots n with
      | none => exact ih hrest
      | some ov =>
        cases ov with
        | none => exact ih hrest
        | some v =>
          have hv : v = "" := by simpa [slotTruthy, hl] using hn
          subst hv
          simpa using ih hrest
  have hfirst : ∀ (pre : List String) (a : String) (post : List String) (v : String),
      (∀ n ∈ pre, slotTruthy slots n = false) →
      alookup slots a = some (some v) → v ≠ "" →
      get_slot_value slots (pre ++ a :: post) dflt = v := by
    intro pre
    induction pre with
    | nil =>
      intro a post v _ ha hv
      simp only [List.nil_append]
      unfold get_slot_value
      rw [ha]
      simp [hv]
    | cons n pre ih =>
      intro a post v h ha hv
      have hn := h n (by simp)
      have hpre : ∀ m ∈ pre, slotTruthy slots m = false :=
        fun m hm => h m (by simp [hm])
      simp only [List.cons_append]
      unfold get_slot_value
      cases hl : alookup slots n with
      | none => exact ih a post v hpre ha hv
      | some ov =>
        cases ov with
        | none => exact ih a post v hpre ha hv
        | some w =>
          have hw : w = "" := by simpa [slotTruthy, hl] using hn
          subst hw
          simpa using ih a post v hpre ha hv
  exact ⟨hdflt names,
    fun pre a post v hnames hpre ha hv => by
      subst hnames; exact hfirst pre a post v hpre ha hv,
    rfl, rfl⟩

/-- C8 witness: aliases `WorkoutType, workoutType`, the bag holding only
`workoutType: running` — the resolver returns `running`. -/
theorem claim_C8_witness :
    get_slot_value [("workoutType", some "running")] ["WorkoutType", "workoutType"] "dflt"
      = "running" :=
  (claim_C8 [("workoutType", some "running")] ["WorkoutType", "workoutType"] "dflt").2.1
    ["WorkoutType"] "workoutType" [] "running" rfl (by decide) (by decide) (by decide)

/-- C9: for a verified identity, unlink called twice in a row succeeds both
times, each time leaving `linked = False` with the recorded `unlinkedAt`
timestamp; the document is merged, not deleted, other top-level fields are
untouched, and the stored `accessToken` / `refreshToken` survive both
calls. -/
theorem claim_C9 (authHeader : Option String) (tokenInfoData : Dict) (email : String)
    (doc : Option UserLinkDoc) (ts1 ts2 : String)
    (hb : bearerOk authHeader = true)
    (he : tokenEmail tokenInfoData = some email) :
    ∃ d1 d2 : UserLinkDoc,
      unlink_alexa_account authHeader 200 tokenInfoData true doc ts1
        = (⟨true, "Account unlinked successfully", 200⟩, some d1)
      ∧ unlink_alexa_account authHeader 200 tokenInfoData true (some d1) ts2
        = (⟨true, "Account unlinked successfully", 200⟩, some d2)
      ∧ tokenField (some d1) "linked" = some (Prim.bool false)
      ∧ tokenField (some d1) "unlinkedAt" = some (Prim.str ts1)
      ∧ tokenField (some d2) "linked" = some (Prim.bool false)
      ∧ tokenField (some d2) "unlinkedAt" = some (Prim.str ts2)
      ∧ tokenField (some d2) "accessToken" = tokenField doc "accessToken"
      ∧ tokenField (some d2) "refreshToken" = tokenField doc "refreshToken"
      ∧ d1.otherFields = (match doc with | some d => d.otherFields | none => [])
      ∧ d2.otherFields = d1.otherFields := by
  refine ⟨mergeSetAmazonTokens doc (unlink_tokens_patch ts1),
    mergeSetAmazonTokens (some (mergeSetAmazonTokens doc (unlink_tokens_patch ts1)))
      (unlink_tokens_patch ts2),
    ?_, ?_, tokenField_merge_linked _ _, tokenField_merge_unlinkedAt _ _,
    tokenField_merge_linked _ _, tokenField_merge_unlinkedAt _ _, ?_, ?_,
    mergeSet_otherFields _ _, ?_⟩
  · simp [unlink_alexa_account, hb, he]
  · simp [unlink_alexa_account, hb, he]
  · rw [tokenField_merge_other _ _ _ (by decide) (by decide),
      tokenField_merge_other _ _ _ (by decide) (by decide)]
  · rw [tokenField_merge_other _ _ _ (by decide) (by decide),
      tokenField_merge_other _ _ _ (by decide) (by decide)]
  · rw [mergeSet_otherFields]

/-- C9 witness: a concrete linked user document unlinked twice; both calls
succeed, both leave `linked = False` with the new timestamp, and the stored
tokens and other fields survive. -/
theorem claim_C9_witness :
    ∃ d1 d2 : UserLinkDoc,
      unlink_alexa_account (some "Bearer abc") 200 [("email", Prim.str "user@example.com")]
        true
        (some ⟨some [("accessToken", Prim.str "A"), ("refreshToken", Prim.str "R"),
                     ("linked", Prim.bool true), ("linkedAt", Prim.str "L")],
               [("workoutLogs", Prim.strList [])]⟩) "t1"
        = (⟨true, "Account unlinked successfully", 200⟩, some d1)
      ∧ unlink_alexa_account (some "Bearer abc") 200 [("email", Prim.str "user@example.com")]
        true (some d1) "t2"
        = (⟨true, "Account unlinked successfully", 200⟩, some d2)
      ∧ tokenField (some d1) "linked" = some (Prim.bool false)
      ∧ tokenField (some d1) "unlinkedAt" = some (Prim.str "t1")
      ∧ tokenField (some d2) "linked" = some (Prim.bool false)
      ∧ tokenField (some d2) "unlinkedAt" = some (Prim.str "t2")
      ∧ tokenField (some d2) "accessToken"
        = tokenField (some ⟨some [("accessToken", Prim.str "A"), ("refreshToken", Prim.str "R"),
            ("linked", Prim.bool true), ("linkedAt", Prim.str "L")],
            [("workoutLogs", Prim.strList [])]⟩) "accessToken"
      ∧ tokenField (some d2) "refreshToken"
        = tokenField (some ⟨some [("accessToken", Prim.str "A"), ("refreshToken", Prim.str "R"),
            ("linked", Prim.bool true), ("linkedAt", Prim.str "L")],
            [("workoutLogs", Prim.strList [])]⟩) "refreshToken"
      ∧ d1.otherFields
        = (match (some (⟨some [("accessToken", Prim.str "A"), ("refreshToken", Prim.str "R"),
            ("linked", Prim.bool true), ("linkedAt", Prim.str "L")],
            [("workoutLogs", Prim.strList [])]⟩ : UserLinkDoc) : Option UserLinkDoc) with
           | some d => d.otherFields | none => [])
      ∧ d2.otherFields = d1.otherFields :=
  claim_C9 (some "Bearer abc") [("email", Prim.str "user@example.com")] "user@example.com"
    (some ⟨some [("accessToken", Prim.str "A"), ("refreshToken", Prim.str "R"),
                 ("linked", Prim.bool true), ("linkedAt", Prim.str "L")],
           [("workoutLogs", Prim.strList [])]⟩) "t1" "t2" (by decide) (by decide)

/-- C10 counterexample: a duration slot value of `-5` parses and is passed
through, so the produced workout event carries the negative duration `-5`,
refuting `duration ≥ 0` as stated. -/
theorem claim_C10_counterexample :
    alexa_duration [("Duration", some "-5")] = -5
    ∧ ¬ (0 ≤ alexa_duration [("Duration", some "-5")]) := by decide

/-- C10 (amended): the normalized duration is always an integer, and it is
nonnegative whenever the duration slot's resolved value does not parse to a
negative integer (in particular on an absent or unparseable slot, where the
default 30 applies); a parseable negative value is passed through
unchanged. -/
theorem claim_C10 : ∀ slots : SlotBag,
    (∀ n : Int, pyInt (get_slot_value slots ["Duration", "duration"] "") = some n → 0 ≤ n) →
    0 ≤ alexa_duration slots := by
  intro slots h
  rw [alexa_duration_getD]
  cases hp : pyInt (get_slot_value slots ["Duration", "duration"] "") with
  | none => decide
  | some n => simpa using h n hp

/-- C10 witness: the slot value `45` parses nonnegative and the produced
duration is nonnegative. -/
theorem claim_C10_witness : 0 ≤ alexa_duration [("Duration", some "45")] := by
  apply claim_C10
  intro n h
  have h45 : pyInt (get_slot_value [("Duration", some "45")] ["Duration", "duration"] "")
      = some 45 := by decide
  rw [h45] at h
  injection h with h'
  omega

end Tracker
